import Mathlib

/-!
Shallow embedding of `src/iperf_automation.py` (class `MobileIperfTester`),
the measurement-cycle orchestrator: it repeatedly runs an external iperf3
throughput tool in both directions, a ping latency probe and an optional GPS
read, and appends one CSV row per cycle.

Numbers that the Python code handles as ints/floats are modelled as `ℚ`
(counts that are structurally natural numbers as `ℕ`).  External-process
effects (subprocess results, GPS packets) are modelled as explicit outcome
values fed to the functions that consume them.
-/

namespace IperfAuto

/-- One CSV cell as written by `csv.writer.writerow`: the Python code puts
either the empty string `''`, a string, or a number into each cell. -/
inductive Field where
  | empty
  | strVal (s : String)
  | natVal (n : ℕ)
  | ratVal (q : ℚ)
deriving DecidableEq

/-- JSON sub-object `end.sum_sent` / `end.sum_received` of iperf3 output.
Each field is optional: the Python code reads them with `.get(key, 0)`. -/
structure SumStats where
  bits_per_second : Option ℚ
  bytes : Option ℚ
  retransmits : Option ℚ
deriving DecidableEq

/-- JSON sub-object `end` of iperf3 output; `sum_sent` / `sum_received` are
read with `.get(key, {})`. -/
structure EndSummary where
  sum_sent : Option SumStats
  sum_received : Option SumStats
deriving DecidableEq

/-- One entry of a JSON `intervals[i].streams` array. -/
structure StreamEntry where
  start : Option ℚ
  end_ : Option ℚ
  bytes : Option ℚ
  bits_per_second : Option ℚ
  retransmits : Option ℚ
deriving DecidableEq

/-- One entry of the JSON `intervals` array; `streams` is read with
`interval.get('streams', [{}])`. -/
structure IntervalEntry where
  streams : Option (List StreamEntry)
deriving DecidableEq

/-- The parsed JSON document produced by `iperf3 -J`: top-level keys
`intervals` (guarded by `if 'intervals' in data`) and `end`
(read with `data.get('end', {})`). -/
structure IperfJson where
  intervals : Option (List IntervalEntry)
  end_ : Option EndSummary
deriving DecidableEq

/-- `{}` default for a missing stream entry (Python `[{}]`). -/
def emptyStream : StreamEntry := ⟨none, none, none, none, none⟩

/-- `{}` default for a missing `sum_sent`/`sum_received` (Python `.get(_, {})`). -/
def emptySum : SumStats := ⟨none, none, none⟩

/-- `{}` default for a missing `end` (Python `data.get('end', {})`). -/
def emptyEnd : EndSummary := ⟨none, none⟩

/-- One element of the `intervals` list built by `run_iperf3_test`
(lines 149-161): start, end, bytes, bits_per_second, retransmits of the
first stream, each defaulted to 0. -/
structure IntervalSample where
  start : ℚ
  end_ : ℚ
  bytes : ℚ
  bits_per_second : ℚ
  retransmits : ℚ
deriving DecidableEq

/-- The interval-extraction loop of `run_iperf3_test` (lines 149-161):
for each interval, `streams = interval.get('streams', [{}])`; if `streams`
is truthy (non-empty) the first stream's fields are appended, defaulting
each to 0; an interval whose `streams` key holds an empty list is skipped. -/
def extractIntervals (l : List IntervalEntry) : List IntervalSample :=
  l.filterMap fun iv =>
    match iv.streams.getD [emptyStream] with
    | [] => none
    | s :: _ =>
        some ⟨s.start.getD 0, s.end_.getD 0, s.bytes.getD 0,
              s.bits_per_second.getD 0, s.retransmits.getD 0⟩

/-- The dict returned by `run_iperf3_test` on success (lines 163-175). -/
structure IperfResult where
  sent_mbps : ℚ
  received_mbps : ℚ
  sent_bytes : ℚ
  received_bytes : ℚ
  retransmits : ℚ
  intervals : List IntervalSample
deriving DecidableEq

/-- Metric extraction of `run_iperf3_test` (lines 163-175):
`end = data.get('end', {})`, `sum_sent = end.get('sum_sent', {})`,
`sum_received = end.get('sum_received', {})`, then each metric is read with
`.get(key, 0)`; throughputs are divided by 1_000_000. -/
def parse_iperf3_output (data : IperfJson) : IperfResult :=
  let e := data.end_.getD emptyEnd
  let sum_sent := e.sum_sent.getD emptySum
  let sum_received := e.sum_received.getD emptySum
  { sent_mbps := sum_sent.bits_per_second.getD 0 / 1000000
    received_mbps := sum_received.bits_per_second.getD 0 / 1000000
    sent_bytes := sum_sent.bytes.getD 0
    received_bytes := sum_received.bytes.getD 0
    retransmits := sum_sent.retransmits.getD 0
    intervals := extractIntervals (data.intervals.getD []) }

/-- Outcome of one `subprocess.run` of the iperf3 tool, as seen by
`run_iperf3_test`: the process timed out (`subprocess.TimeoutExpired`),
some other exception was raised, or the process exited with a return code
and stdout whose JSON parse either failed (`none`, `json.JSONDecodeError`)
or produced a document. -/
inductive IperfOutcome where
  | timeoutExpired
  | otherFailure
  | exited (returncode : ℤ) (stdout : Option IperfJson)
deriving DecidableEq

/-- `run_iperf3_test` (lines 108-192): timeout, any exception, a non-zero
return code, or unparsable JSON yield `None`; otherwise the parsed metrics. -/
def run_iperf3_test (outcome : IperfOutcome) : Option IperfResult :=
  match outcome with
  | .timeoutExpired => none
  | .otherFailure => none
  | .exited rc stdout =>
      if rc ≠ 0 then none
      else
        match stdout with
        | none => none
        | some data => some (parse_iperf3_output data)

/-- The `timeout=` argument passed to `subprocess.run` in `run_iperf3_test`
(line 131): `self.test_duration + 30`. -/
def iperf3_timeout (test_duration : ℕ) : ℕ := test_duration + 30

/-- Does `p` head the character list `l`? (Python `str.startswith` on lists.) -/
def leadsWith : List Char → List Char → Bool
  | [], _ => true
  | _ :: _, [] => false
  | p :: ps, c :: cs => p == c && leadsWith ps cs

/-- Does `pat` occur as a contiguous run inside `l`?
Models the Python substring test `pat in line`. -/
def containsSub (pat : List Char) : List Char → Bool
  | [] => leadsWith pat []
  | c :: cs => leadsWith pat (c :: cs) || containsSub pat cs

/-- Python `pat in s` on strings. -/
def strContains (s pat : String) : Bool := containsSub pat.data s.data

/-- Are all characters decimal digits? -/
def allDigits (cs : List Char) : Bool := cs.all Char.isDigit

/-- Value of a decimal digit run. -/
def digitsVal (cs : List Char) : ℕ :=
  cs.foldl (fun a c => a * 10 + (c.toNat - 48)) 0

/-- `str.split(sep)` for a single-character separator, on character lists:
`splitOnChar '=' "a=b".data = ["a".data, "b".data]`, and the empty input
gives one empty part, as in Python. -/
def splitOnChar (sep : Char) : List Char → List (List Char)
  | [] => [[]]
  | c :: cs =>
      if c = sep then [] :: splitOnChar sep cs
      else
        match splitOnChar sep cs with
        | [] => [[c]]
        | h :: t => (c :: h) :: t

/-- Python `str.strip()`: drop whitespace from both ends. -/
def stripChars (cs : List Char) : List Char :=
  ((cs.dropWhile Char.isWhitespace).reverse.dropWhile Char.isWhitespace).reverse

/-- Python `str.replace('ms', '')`: delete each left-to-right,
non-overlapping occurrence of `"ms"`. -/
def removeMs : List Char → List Char
  | 'm' :: 's' :: cs => removeMs cs
  | c :: cs => c :: removeMs cs
  | [] => []

/-- Python `float()` on an unsigned plain decimal literal: digit run with at
most one point, at least one digit (`"1"`, `"1."`, `".5"`, `"12.75"`); any
other shape raises, i.e. yields `none`.  (The ping output this models never
carries exponents, infinities or NaN.) -/
def parseUnsignedFloat (cs : List Char) : Option ℚ :=
  match splitOnChar '.' cs with
  | [ip] => if allDigits ip ∧ ip ≠ [] then some (digitsVal ip) else none
  | [ip, fp] =>
      if allDigits ip ∧ allDigits fp ∧ (ip ≠ [] ∨ fp ≠ []) then
        some ((digitsVal ip : ℚ) + (digitsVal fp : ℚ) / (10 : ℚ) ^ fp.length)
      else none
  | _ => none

/-- Python `float()` on a plain decimal literal with an optional sign. -/
def parsePyFloat (cs : List Char) : Option ℚ :=
  match cs with
  | '-' :: rest => (parseUnsignedFloat rest).map Neg.neg
  | '+' :: rest => parseUnsignedFloat rest
  | _ => parseUnsignedFloat cs

/-- The line loop of `run_ping_test` (lines 209-216): the first line
containing `'Average'` and containing `'='` decides the result — its last
`'='`-part, stripped and with every `'ms'` removed, is passed to `float()`;
a `float()` failure raises out of the loop (overall `None`, here `none`).
A line containing `'Average'` but no `'='` is skipped. -/
def parsePingLines : List (List Char) → Option ℚ
  | [] => none
  | line :: rest =>
      if containsSub "Average".data line then
        let parts := splitOnChar '=' line
        if parts.length > 1 then
          parsePyFloat (removeMs (stripChars (parts.getLast?.getD [])))
        else parsePingLines rest
      else parsePingLines rest

/-- Outcome of the `subprocess.run` of ping in `run_ping_test`: an exception
(timeout included), or an exit with a return code and stdout text. -/
inductive PingOutcome where
  | failure
  | exited (returncode : ℤ) (stdout : String)
deriving DecidableEq

/-- `run_ping_test` (lines 194-219): on exception `None`; on non-zero return
code `None` (falls off the `if`); on return code 0 the stdout is split on
newlines and scanned for the average RTT. -/
def run_ping_test (outcome : PingOutcome) : Option ℚ :=
  match outcome with
  | .failure => none
  | .exited rc stdout =>
      if rc = 0 then parsePingLines (splitOnChar '\n' stdout.data) else none

/-- A gpsd packet as consumed by `get_gps_location`. -/
structure GpsPacket where
  mode : ℤ
  lat : ℚ
  lon : ℚ
  alt : ℚ
deriving DecidableEq

/-- `get_gps_location` (lines 95-106): `(None, None, None)` when GPS is
disabled, when `gpsd.get_current()` raises (`packet = none`), or when the fix
mode is below 2; otherwise the packet's latitude, longitude, altitude. -/
def get_gps_location (gps_enabled : Bool) (packet : Option GpsPacket) :
    Option ℚ × Option ℚ × Option ℚ :=
  if gps_enabled then
    match packet with
    | some p => if p.mode ≥ 2 then (some p.lat, some p.lon, some p.alt)
                else (none, none, none)
    | none => (none, none, none)
  else (none, none, none)

/-- `x if x is not None else ''` for a GPS coordinate (lines 230-232). -/
def optCoordField (q : Option ℚ) : Field :=
  match q with
  | some v => .ratVal v
  | none => .empty

/-- `rtt if rtt else ''` (line 239): Python truthiness, so `None` AND the
float `0.0` both give the empty string. -/
def rttField (rtt : Option ℚ) : Field :=
  match rtt with
  | some v => if v ≠ 0 then .ratVal v else .empty
  | none => .empty

/-- The row built by `log_result` (lines 227-243), in column order:
timestamp, test_number, latitude, longitude, altitude, download_mbps,
upload_mbps, download_transfer_gb, upload_transfer_gb, download_retransmits,
upload_retransmits, rtt_ms, test_duration, download_intervals,
upload_intervals.  Download columns use `received_*` of the reverse-mode
result, upload columns `sent_*`; both retransmit columns use the result's
(sent-side) `retransmits`; byte counts are divided by 1_000_000_000. -/
def log_result_row (timestamp : String) (test_count : ℕ) (test_duration : ℕ)
    (gps : Option ℚ × Option ℚ × Option ℚ)
    (download_result upload_result : Option IperfResult)
    (rtt : Option ℚ) : List Field :=
  [ .strVal timestamp,
    .natVal test_count,
    optCoordField gps.1,
    optCoordField gps.2.1,
    optCoordField gps.2.2,
    (match download_result with | some r => .ratVal r.received_mbps | none => .empty),
    (match upload_result with | some r => .ratVal r.sent_mbps | none => .empty),
    (match download_result with
      | some r => .ratVal (r.received_bytes / 1000000000) | none => .empty),
    (match upload_result with
      | some r => .ratVal (r.sent_bytes / 1000000000) | none => .empty),
    (match download_result with | some r => .ratVal r.retransmits | none => .empty),
    (match upload_result with | some r => .ratVal r.retransmits | none => .empty),
    rttField rtt,
    .natVal test_duration,
    (match download_result with | some r => .natVal r.intervals.length | none => .empty),
    (match upload_result with | some r => .natVal r.intervals.length | none => .empty) ]

/-- The mutable state of `MobileIperfTester` that the claims concern:
the cycle counter `test_count`, the rows of the CSV file, and `running`. -/
structure TesterState where
  test_count : ℕ
  csv_rows : List (List Field)
  running : Bool
deriving DecidableEq

/-- The run configuration fixed at startup (CLI): per-test duration and
inter-cycle interval. -/
structure RunConfig where
  test_duration : ℕ
  test_interval : ℚ
deriving DecidableEq

/-- The external-world inputs consumed by one call of `run_test_cycle`:
the two iperf3 subprocess outcomes, the ping outcome, the GPS state and the
wall-clock timestamp string taken in `log_result`. -/
structure CycleEnv where
  timestamp : String
  dl_outcome : IperfOutcome
  ul_outcome : IperfOutcome
  ping_outcome : PingOutcome
  gps_enabled : Bool
  gps_packet : Option GpsPacket
deriving DecidableEq

/-- `run_test_cycle` (lines 269-287): increment `test_count`, run the
reverse-mode (download) test, the forward-mode (upload) test and the ping
test, then `log_result` appends exactly one row to the CSV file. -/
def run_test_cycle (env : CycleEnv) (cfg : RunConfig) (s : TesterState) :
    TesterState :=
  let test_count := s.test_count + 1
  let download_result := run_iperf3_test env.dl_outcome
  let upload_result := run_iperf3_test env.ul_outcome
  let rtt := run_ping_test env.ping_outcome
  let gps := get_gps_location env.gps_enabled env.gps_packet
  let row := log_result_row env.timestamp test_count cfg.test_duration gps
      download_result upload_result rtt
  { test_count := test_count
    csv_rows := s.csv_rows ++ [row]
    running := s.running }

/-- The last row of the CSV file. -/
def lastRow (s : TesterState) : List Field := s.csv_rows.getLast?.getD []

/-- `sleep_time = max(0, self.test_interval - elapsed)` (line 307). -/
def compute_sleep_time (test_interval elapsed : ℚ) : ℚ :=
  max 0 (test_interval - elapsed)

/-- The sleep actually performed by `start_testing` (lines 309-311):
`time.sleep(sleep_time)` runs only when `sleep_time > 0 and self.running`,
otherwise no sleep happens, i.e. zero seconds are slept. -/
def performed_sleep (test_interval elapsed : ℚ) (running : Bool) : ℚ :=
  let st := compute_sleep_time test_interval elapsed
  if 0 < st ∧ running then st else 0

/-- The CSV header row of `setup_csv_file` (lines 68-73). -/
def csv_headers : List Field :=
  ([ "timestamp", "test_number", "latitude", "longitude", "altitude",
     "download_mbps", "upload_mbps", "download_transfer_gb",
     "upload_transfer_gb", "download_retransmits", "upload_retransmits",
     "rtt_ms", "test_duration", "download_intervals",
     "upload_intervals" ]).map Field.strVal

/-- `setup_csv_file` (lines 66-78): `open(self.csv_file, 'w')` truncates the
path unconditionally and the header row is written; `prior` — the file's
contents in case the path already exists — is discarded by the `'w'` mode. -/
def setup_csv_file (prior : Option (List (List Field))) :
    List (List Field) :=
  [csv_headers]

/-- The summary line `stop_testing` writes to the detailed log (line 320). -/
def stop_testing_log_line (test_count : ℕ) : String :=
  "Testing stopped. Total tests: " ++ toString test_count

/-- `stop_testing` (lines 316-322): set `running = False` and emit the final
summary log line; the CSV file is not touched. -/
def stop_testing (s : TesterState) : TesterState × String :=
  ({ s with running := false }, stop_testing_log_line s.test_count)

/-- `signal_handler` (lines 324-327): on SIGINT call `stop_testing`, then
`sys.exit(0)`.  Returns the final state, the summary line and the exit code. -/
def signal_handler (s : TesterState) : TesterState × String × ℕ :=
  let r := stop_testing s
  (r.1, r.2, 0)

/-! ## Helper lemmas -/

lemma getLast?_append_singleton {α : Type} (l : List α) (a : α) :
    (l ++ [a]).getLast? = some a := by
  induction l with
  | nil => rfl
  | cons b t ih =>
      rw [List.cons_append, List.getLast?_cons, ih]
      cases t <;> simp [List.getLast?]

/-- The row appended by `run_test_cycle` is the row `log_result` builds from
the cycle's sub-test results. -/
lemma lastRow_run_test_cycle (env : CycleEnv) (cfg : RunConfig)
    (s : TesterState) :
    lastRow (run_test_cycle env cfg s) =
      log_result_row env.timestamp (s.test_count + 1) cfg.test_duration
        (get_gps_location env.gps_enabled env.gps_packet)
        (run_iperf3_test env.dl_outcome) (run_iperf3_test env.ul_outcome)
        (run_ping_test env.ping_outcome) := by
  simp [lastRow, run_test_cycle, getLast?_append_singleton]

/-! ## Claims -/

/-- C1: For every completed measurement cycle, exactly one row is appended to
the CSV log file, regardless of whether the downlink sub-test, the uplink
sub-test, the latency probe, or the position read failed within that cycle
(all of those outcomes are quantified over in `env`). -/
theorem cycle_appends_exactly_one_row (env : CycleEnv) (cfg : RunConfig)
    (s : TesterState) :
    (run_test_cycle env cfg s).csv_rows.length = s.csv_rows.length + 1 := by
  simp [run_test_cycle]

/-- C4: the inter-cycle sleep time is `max(0, test_interval - elapsed)`,
this is non-negative for every elapsed time, and (while `running`) the
performed sleep equals exactly that value — zero seconds when the elapsed
time exceeds the interval. -/
theorem sleep_time_spec (test_interval elapsed : ℚ) :
    compute_sleep_time test_interval elapsed =
        max 0 (test_interval - elapsed) ∧
    0 ≤ compute_sleep_time test_interval elapsed ∧
    performed_sleep test_interval elapsed true =
        compute_sleep_time test_interval elapsed := by
  refine ⟨rfl, le_max_left 0 _, ?_⟩
  unfold performed_sleep
  rcases lt_or_eq_of_le (le_max_left 0 (test_interval - elapsed)) with h | h
  · simp [compute_sleep_time, h]
  · simp [compute_sleep_time, ← h]

/-- C5 counterexample: `setup_csv_file` does not leave an existing file's
contents unchanged — run on a file that already holds one non-header row, it
replaces the contents with the (freshly rewritten) header row. -/
theorem setup_csv_overwrites_existing :
    setup_csv_file (some [[Field.strVal "old data"]]) = [csv_headers] ∧
    [csv_headers] ≠ [[Field.strVal "old data"]] := by
  exact ⟨rfl, by decide⟩

/-- C5 amended: log-file setup is not guarded on existence: `setup_csv_file`
opens the path in `'w'` mode, so for every prior state of the path (absent,
or present with any contents) the file afterwards holds exactly the header
row; prior contents are discarded.  Collisions with earlier runs are avoided
only because each run's filename embeds a startup timestamp. -/
theorem setup_csv_always_writes_header (prior : Option (List (List Field))) :
    setup_csv_file prior = [csv_headers] := rfl

/-- C7: when the interrupt signal arrives (in particular during the
inter-cycle wait), the handler writes no record — the CSV rows are exactly
those already present — logs the final summary line, and exits with code 0. -/
theorem interrupt_clean_shutdown (s : TesterState) :
    (signal_handler s).1.csv_rows = s.csv_rows ∧
    (signal_handler s).2.1 = stop_testing_log_line s.test_count ∧
    (signal_handler s).2.2 = 0 := by
  exact ⟨rfl, rfl, rfl⟩

/-- C2: throughputs are divided by 1_000_000 (Mbps) and byte counts by
1_000_000_000 (GB) before being written to the record; in particular a
downlink result whose `end.sum_received.bits_per_second` is 100000000 puts
exactly 100 into the record's download_mbps column (index 5; upload_mbps is
6, the transfer-GB columns are 7 and 8). -/
theorem unit_conversion_in_record (env : CycleEnv) (cfg : RunConfig)
    (s : TesterState) (jd ju : IperfJson) (ed eu : EndSummary)
    (srd ssu : SumStats) (bd yd bu yu : ℚ)
    (hdl : env.dl_outcome = .exited 0 (some jd))
    (hul : env.ul_outcome = .exited 0 (some ju))
    (hed : jd.end_ = some ed) (hrd : ed.sum_received = some srd)
    (heu : ju.end_ = some eu) (hsu : eu.sum_sent = some ssu)
    (hbd : srd.bits_per_second = some bd) (hyd : srd.bytes = some yd)
    (hbu : ssu.bits_per_second = some bu) (hyu : ssu.bytes = some yu) :
    (lastRow (run_test_cycle env cfg s)).getD 5 .empty =
        .ratVal (bd / 1000000) ∧
    (lastRow (run_test_cycle env cfg s)).getD 6 .empty =
        .ratVal (bu / 1000000) ∧
    (lastRow (run_test_cycle env cfg s)).getD 7 .empty =
        .ratVal (yd / 1000000000) ∧
    (lastRow (run_test_cycle env cfg s)).getD 8 .empty =
        .ratVal (yu / 1000000000) ∧
    (bd = 100000000 →
      (lastRow (run_test_cycle env cfg s)).getD 5 .empty = .ratVal 100) := by
  have hd : run_iperf3_test env.dl_outcome = some (parse_iperf3_output jd) := by
    simp [hdl, run_iperf3_test]
  have hu : run_iperf3_test env.ul_outcome = some (parse_iperf3_output ju) := by
    simp [hul, run_iperf3_test]
  rw [lastRow_run_test_cycle, hd, hu]
  have h5 : (parse_iperf3_output jd).received_mbps = bd / 1000000 := by
    simp [parse_iperf3_output, hed, hrd, hbd]
  have h6 : (parse_iperf3_output ju).sent_mbps = bu / 1000000 := by
    simp [parse_iperf3_output, heu, hsu, hbu]
  have h7 : (parse_iperf3_output jd).received_bytes = yd := by
    simp [parse_iperf3_output, hed, hrd, hyd]
  have h8 : (parse_iperf3_output ju).sent_bytes = yu := by
    simp [parse_iperf3_output, heu, hsu, hyu]
  refine ⟨?_, ?_, ?_, ?_, ?_⟩
  · simp [log_result_row, h5]
  · simp [log_result_row, h6]
  · simp [log_result_row, h7]
  · simp [log_result_row, h8]
  · intro h100
    simp [log_result_row, h5, h100]
    norm_num

/-- A downlink JSON document: 100 Mbit/s and 2_000_000_000 bytes received. -/
def sampleDlJson : IperfJson :=
  ⟨none, some ⟨none, some ⟨some 100000000, some 2000000000, none⟩⟩⟩

/-- An uplink JSON document: 50 Mbit/s and 1_000_000_000 bytes sent,
3 retransmits. -/
def sampleUlJson : IperfJson :=
  ⟨none, some ⟨some ⟨some 50000000, some 1000000000, some 3⟩, none⟩⟩

/-- A fresh tester state: no cycles run, empty CSV body, running. -/
def sampleState : TesterState := ⟨0, [], true⟩

/-- The default CLI configuration: 5 s tests every 10 s. -/
def sampleCfg : RunConfig := ⟨5, 10⟩

theorem unit_conversion_in_record_witness :
    (lastRow (run_test_cycle
        ⟨"t0", .exited 0 (some sampleDlJson), .exited 0 (some sampleUlJson),
         .failure, false, none⟩ sampleCfg sampleState)).getD 5 .empty =
      .ratVal 100 :=
  (unit_conversion_in_record
      ⟨"t0", .exited 0 (some sampleDlJson), .exited 0 (some sampleUlJson),
       .failure, false, none⟩ sampleCfg sampleState
      sampleDlJson sampleUlJson
      ⟨none, some ⟨some 100000000, some 2000000000, none⟩⟩
      ⟨some ⟨some 50000000, some 1000000000, some 3⟩, none⟩
      ⟨some 100000000, some 2000000000, none⟩
      ⟨some 50000000, some 1000000000, some 3⟩
      100000000 2000000000 50000000 1000000000
      rfl rfl rfl rfl rfl rfl rfl rfl rfl rfl).2.2.2.2 rfl

/-- C3: when the downlink (reverse-mode) invocation fails but the uplink
(forward-mode) one succeeds, the cycle still appends its one record; that
record is empty in every downlink column (Mbps 5, GB 7, retransmits 9,
interval count 13) and populated in every uplink column (6, 8, 10, 14). -/
theorem download_failure_isolated (env : CycleEnv) (cfg : RunConfig)
    (s : TesterState) (j : IperfJson)
    (hdl : run_iperf3_test env.dl_outcome = none)
    (hul : env.ul_outcome = .exited 0 (some j)) :
    (run_test_cycle env cfg s).csv_rows.length = s.csv_rows.length + 1 ∧
    (lastRow (run_test_cycle env cfg s)).getD 5 .empty = .empty ∧
    (lastRow (run_test_cycle env cfg s)).getD 7 .empty = .empty ∧
    (lastRow (run_test_cycle env cfg s)).getD 9 .empty = .empty ∧
    (lastRow (run_test_cycle env cfg s)).getD 13 .empty = .empty ∧
    (lastRow (run_test_cycle env cfg s)).getD 6 .empty =
        .ratVal (parse_iperf3_output j).sent_mbps ∧
    (lastRow (run_test_cycle env cfg s)).getD 8 .empty =
        .ratVal ((parse_iperf3_output j).sent_bytes / 1000000000) ∧
    (lastRow (run_test_cycle env cfg s)).getD 10 .empty =
        .ratVal (parse_iperf3_output j).retransmits ∧
    (lastRow (run_test_cycle env cfg s)).getD 14 .empty =
        .natVal (parse_iperf3_output j).intervals.length := by
  have hu : run_iperf3_test env.ul_outcome = some (parse_iperf3_output j) := by
    simp [hul, run_iperf3_test]
  rw [lastRow_run_test_cycle, hdl, hu]
  exact ⟨by simp [run_test_cycle], rfl, rfl, rfl, rfl, rfl, rfl, rfl, rfl⟩

theorem download_failure_isolated_witness :
    (lastRow (run_test_cycle
        ⟨"t1", .timeoutExpired, .exited 0 (some sampleUlJson),
         .failure, false, none⟩ sampleCfg sampleState)).getD 5 .empty =
      Field.empty ∧
    (lastRow (run_test_cycle
        ⟨"t1", .timeoutExpired, .exited 0 (some sampleUlJson),
         .failure, false, none⟩ sampleCfg sampleState)).getD 6 .empty =
      Field.ratVal 50 := by
  have h := download_failure_isolated
      ⟨"t1", .timeoutExpired, .exited 0 (some sampleUlJson),
       .failure, false, none⟩ sampleCfg sampleState sampleUlJson rfl rfl
  refine ⟨h.2.1, ?_⟩
  rw [h.2.2.2.2.2.1]
  norm_num [parse_iperf3_output, sampleUlJson, emptySum]

/-- C6: the iperf3 subprocess timeout is the configured duration plus 30
seconds; an expired timeout makes `run_iperf3_test` return `None` exactly as
a non-zero-exit invocation failure does, and a cycle whose downlink test
timed out still appends its one record, with every downlink column empty. -/
theorem timeout_bounded_and_nonfatal (env : CycleEnv) (cfg : RunConfig)
    (s : TesterState) (d : ℕ)
    (hdl : env.dl_outcome = .timeoutExpired) :
    iperf3_timeout d = d + 30 ∧
    run_iperf3_test IperfOutcome.timeoutExpired = none ∧
    run_iperf3_test IperfOutcome.timeoutExpired =
        run_iperf3_test (IperfOutcome.exited 1 none) ∧
    (run_test_cycle env cfg s).csv_rows.length = s.csv_rows.length + 1 ∧
    (lastRow (run_test_cycle env cfg s)).getD 5 .empty = .empty ∧
    (lastRow (run_test_cycle env cfg s)).getD 7 .empty = .empty ∧
    (lastRow (run_test_cycle env cfg s)).getD 9 .empty = .empty ∧
    (lastRow (run_test_cycle env cfg s)).getD 13 .empty = .empty := by
  have hd : run_iperf3_test env.dl_outcome = none := by
    simp [hdl, run_iperf3_test]
  rw [lastRow_run_test_cycle, hd]
  refine ⟨rfl, rfl, rfl, by simp [run_test_cycle], ?_, ?_, ?_, ?_⟩ <;>
    cases hu : run_iperf3_test env.ul_outcome <;> rfl

theorem timeout_bounded_and_nonfatal_witness :
    iperf3_timeout 5 = 35 ∧
    (lastRow (run_test_cycle
        ⟨"t2", .timeoutExpired, .timeoutExpired, .failure, false, none⟩
        sampleCfg sampleState)).getD 5 .empty = Field.empty := by
  have h := timeout_bounded_and_nonfatal
      ⟨"t2", .timeoutExpired, .timeoutExpired, .failure, false, none⟩
      sampleCfg sampleState 5 rfl
  exact ⟨h.1, h.2.2.2.2.1⟩

/-- C8: a latency probe that succeeds with an average round-trip time of
exactly 0 makes the record's rtt_ms column (index 11) empty rather than 0,
because `log_result` tests `rtt` for truthiness, not for `None`. -/
theorem zero_rtt_logged_empty (env : CycleEnv) (cfg : RunConfig)
    (s : TesterState)
    (h : run_ping_test env.ping_outcome = some 0) :
    (lastRow (run_test_cycle env cfg s)).getD 11 .empty = .empty ∧
    (lastRow (run_test_cycle env cfg s)).getD 11 .empty ≠ .ratVal 0 := by
  rw [lastRow_run_test_cycle, h]
  constructor <;>
    cases hd : run_iperf3_test env.dl_outcome <;>
    cases hu : run_iperf3_test env.ul_outcome <;>
    simp [log_result_row, rttField]

theorem zero_rtt_logged_empty_witness :
    (lastRow (run_test_cycle
        ⟨"t3", .timeoutExpired, .timeoutExpired,
         .exited 0 "Average = 0ms", false, none⟩
        sampleCfg sampleState)).getD 11 .empty = Field.empty :=
  (zero_rtt_logged_empty
      ⟨"t3", .timeoutExpired, .timeoutExpired,
       .exited 0 "Average = 0ms", false, none⟩
      sampleCfg sampleState
      (by simp +decide [run_ping_test, parsePingLines, splitOnChar,
            containsSub, leadsWith, stripChars, removeMs, parsePyFloat,
            parseUnsignedFloat, allDigits, digitsVal])).1

/-- Missing `end` or missing `end.sum_received` zeroes the received metrics. -/
lemma parse_received_defaults (j : IperfJson)
    (hrec : j.end_.bind EndSummary.sum_received = none) :
    (parse_iperf3_output j).received_mbps = 0 ∧
    (parse_iperf3_output j).received_bytes = 0 := by
  cases hj : j.end_ with
  | none => simp [parse_iperf3_output, hj, emptyEnd, emptySum]
  | some e =>
      rw [hj] at hrec
      simp only [Option.some_bind] at hrec
      simp [parse_iperf3_output, hj, hrec, emptySum]

/-- Missing `end` or missing `end.sum_sent` zeroes the sent metrics. -/
lemma parse_sent_defaults (j : IperfJson)
    (hsent : j.end_.bind EndSummary.sum_sent = none) :
    (parse_iperf3_output j).sent_mbps = 0 ∧
    (parse_iperf3_output j).sent_bytes = 0 ∧
    (parse_iperf3_output j).retransmits = 0 := by
  cases hj : j.end_ with
  | none => simp [parse_iperf3_output, hj, emptyEnd, emptySum]
  | some e =>
      rw [hj] at hsent
      simp only [Option.some_bind] at hsent
      simp [parse_iperf3_output, hj, hsent, emptySum]

/-- C9: output that parses as JSON is a successful sub-test even when it
lacks the `end` summary or either of its `sum_sent`/`sum_received`
sub-objects: each missing metric defaults to 0, and the record then shows
0 Mbps (column 5), 0 GB (column 7) and 0 retransmits (column 9) rather than
empty downlink columns. -/
theorem missing_end_summary_defaults_zero (env : CycleEnv) (cfg : RunConfig)
    (s : TesterState) (j : IperfJson)
    (hdl : env.dl_outcome = .exited 0 (some j)) :
    run_iperf3_test env.dl_outcome = some (parse_iperf3_output j) ∧
    (j.end_.bind EndSummary.sum_received = none →
      (parse_iperf3_output j).received_mbps = 0 ∧
      (parse_iperf3_output j).received_bytes = 0 ∧
      (lastRow (run_test_cycle env cfg s)).getD 5 .empty = Field.ratVal 0 ∧
      (lastRow (run_test_cycle env cfg s)).getD 7 .empty = Field.ratVal 0) ∧
    (j.end_.bind EndSummary.sum_sent = none →
      (parse_iperf3_output j).sent_mbps = 0 ∧
      (parse_iperf3_output j).sent_bytes = 0 ∧
      (parse_iperf3_output j).retransmits = 0 ∧
      (lastRow (run_test_cycle env cfg s)).getD 9 .empty = Field.ratVal 0) := by
  have hd : run_iperf3_test env.dl_outcome = some (parse_iperf3_output j) := by
    simp [hdl, run_iperf3_test]
  refine ⟨hd, ?_, ?_⟩
  · intro hrec
    obtain ⟨z1, z2⟩ := parse_received_defaults j hrec
    refine ⟨z1, z2, ?_, ?_⟩ <;>
      (rw [lastRow_run_test_cycle, hd];
       cases hu : run_iperf3_test env.ul_outcome <;>
       simp [log_result_row, z1, z2])
  · intro hsent
    obtain ⟨z3, z4, z5⟩ := parse_sent_defaults j hsent
    refine ⟨z3, z4, z5, ?_⟩
    rw [lastRow_run_test_cycle, hd]
    cases hu : run_iperf3_test env.ul_outcome <;>
      simp [log_result_row, z5]

theorem missing_end_summary_defaults_zero_witness :
    (lastRow (run_test_cycle
        ⟨"t4", .exited 0 (some ⟨none, none⟩), .timeoutExpired,
         .failure, false, none⟩ sampleCfg sampleState)).getD 5 .empty =
      Field.ratVal 0 :=
  ((missing_end_summary_defaults_zero
      ⟨"t4", .exited 0 (some ⟨none, none⟩), .timeoutExpired,
       .failure, false, none⟩ sampleCfg sampleState ⟨none, none⟩
      rfl).2.1 rfl).2.2.1

/-- C10: the retransmit count a result carries is always
`end.sum_sent.retransmits` (defaulted to 0); the downlink record column
(index 9) therefore reports the sent-side count, and the parsed retransmit
count of any two documents with the same `sum_sent` coincides — so it never
depends on `sum_received.retransmits`. -/
theorem retransmits_always_sent_side (env : CycleEnv) (cfg : RunConfig)
    (s : TesterState) (j : IperfJson)
    (hdl : env.dl_outcome = .exited 0 (some j)) :
    (parse_iperf3_output j).retransmits =
      ((j.end_.getD emptyEnd).sum_sent.getD emptySum).retransmits.getD 0 ∧
    (lastRow (run_test_cycle env cfg s)).getD 9 .empty =
      Field.ratVal
        (((j.end_.getD emptyEnd).sum_sent.getD emptySum).retransmits.getD 0) ∧
    (∀ j' : IperfJson,
      (j'.end_.getD emptyEnd).sum_sent = (j.end_.getD emptyEnd).sum_sent →
      (parse_iperf3_output j').retransmits =
        (parse_iperf3_output j).retransmits) := by
  have hd : run_iperf3_test env.dl_outcome = some (parse_iperf3_output j) := by
    simp [hdl, run_iperf3_test]
  have hr : (parse_iperf3_output j).retransmits =
      ((j.end_.getD emptyEnd).sum_sent.getD emptySum).retransmits.getD 0 := rfl
  refine ⟨hr, ?_, ?_⟩
  · rw [lastRow_run_test_cycle, hd, ← hr]
    cases hu : run_iperf3_test env.ul_outcome <;> rfl
  · intro j' hsame
    rw [hr]
    show ((j'.end_.getD emptyEnd).sum_sent.getD emptySum).retransmits.getD 0 = _
    rw [hsame]

theorem retransmits_always_sent_side_witness :
    (lastRow (run_test_cycle
        ⟨"t5",
         .exited 0 (some ⟨none,
            some ⟨some ⟨none, none, some 7⟩, some ⟨none, none, some 99⟩⟩⟩),
         .timeoutExpired, .failure, false, none⟩
        sampleCfg sampleState)).getD 9 .empty = Field.ratVal 7 :=
  (retransmits_always_sent_side
      ⟨"t5",
       .exited 0 (some ⟨none,
          some ⟨some ⟨none, none, some 7⟩, some ⟨none, none, some 99⟩⟩⟩),
       .timeoutExpired, .failure, false, none⟩
      sampleCfg sampleState
      ⟨none, some ⟨some ⟨none, none, some 7⟩, some ⟨none, none, some 99⟩⟩⟩
      rfl).2.1

end IperfAuto
